import Mathlib

/-!
Verification of the `semantic-tags-plugin` repository fixture.

The repository consists of a single test-fixture file,
`test-files/test-python.py`, whose lines are transcribed verbatim into
`SemTags.fileLines` below.  All properties under scrutiny are textual
properties of that file (annotation-comment format, grouping of sample
snippets by blank lines, Python statement keywords), plus a shallow
embedding of the fixture's top-level Python statements used to reason
about name binding and sequential evaluation.
-/

namespace SemTags

/-- `startsCh p s` holds when the character list `p` is a prefix of `s`. -/
def startsCh : List Char → List Char → Bool
  | [], _ => true
  | _ :: _, [] => false
  | a :: p, b :: s => a == b && startsCh p s

/-- `dropPre p s` removes prefix `p` from `s`, or fails when `p` is not a prefix. -/
def dropPre : List Char → List Char → Option (List Char)
  | [], s => some s
  | _ :: _, [] => none
  | a :: p, b :: s => if a == b then dropPre p s else none

/-- Remainder of `s` after the first occurrence of `p`, if `p` occurs in `s`. -/
def afterSub : List Char → List Char → Option (List Char)
  | p, [] => dropPre p []
  | p, c :: s =>
    match dropPre p (c :: s) with
    | some r => some r
    | none => afterSub p s

/-- Does `p` occur as a contiguous substring of `s`? -/
def hasSubCh (p : List Char) (s : List Char) : Bool :=
  (afterSub p s).isSome

/-- The number of start positions in `s` at which `p` occurs. -/
def countSubCh : List Char → List Char → Nat
  | p, [] => if (dropPre p []).isSome then 1 else 0
  | p, c :: s =>
    (if (dropPre p (c :: s)).isSome then 1 else 0) + countSubCh p s

/-- String-level wrapper for `startsCh`. -/
def startsStr (p s : String) : Bool := startsCh p.data s.data

/-- String-level wrapper for `hasSubCh`. -/
def hasSubStr (p s : String) : Bool := hasSubCh p.data s.data

/-- The double-quote character. -/
def dquote : Char := Char.ofNat 34

/-- The verbatim lines of `test-files/test-python.py` (1-based line `n` is
element `n - 1`; the file has 41 lines). -/
def fileLines : List String := [
  "import requests",
  "import json",
  "",
  "# Network calls - should be tagged as \"Network Call\"",
  "response = requests.get(\x27https://api.example.com\x27)",
  "fetch_data = http.get(\x27/api/users\x27)",
  "",
  "# Debug statements - should be tagged as \"Debug Statement\"",
  "print(\"Debug message\")",
  "console.log(\"Another debug\")",
  "debugger()",
  "",
  "# TODOs - should be tagged as \"Unfinished Block\"",
  "# TODO: Add error handling",
  "# FIXME: This function is broken",
  "# HACK: Temporary fix for the bug",
  "# NOTE: Remember to update this",
  "",
  "# Database operations - should be tagged as \"Database Operation\"",
  "user = User.objects.get(id=1)",
  "query = \"SELECT * FROM users WHERE active = 1\"",
  "User.create(name=\"John\", email=\"john@example.com\")",
  "users.save()",
  "",
  "# Error handling - should be tagged as \"Error Handling\"",
  "try:",
  "    risky_operation()",
  "except Exception as e:",
  "    print(f\"Error: {e}\")",
  "    raise ValueError(\"Custom error\")",
  "",
  "# Authentication - should be tagged as \"Authentication\"",
  "token = generate_jwt_token(user_id)",
  "if user.is_authenticated():",
  "    login_user(user)",
  "password_hash = hash_password(password)",
  "",
  "# Configuration - should be tagged as \"Configuration\"",
  "api_key = os.environ.get(\x27API_KEY\x27)",
  "config = load_config_file()",
  "settings = get_app_settings()"
]

/-- The source files of the repository (relative paths with their lines).
The repository contains exactly this one file. -/
def repoSourceFiles : List (String × List String) :=
  [("test-files/test-python.py", fileLines)]

/-- The 1-based line `n` of the fixture (`""` when out of range). -/
def lineAt (n : Nat) : String := fileLines.getD (n - 1) ""

/-- Total number of occurrences of `p` across the lines of the fixture. -/
def countInFile (p : String) : Nat :=
  (fileLines.map (fun l => countSubCh p.data l.data)).sum

/-- `chopQuote cs` succeeds when `cs` is `cat ++ [dquote]` with no double
quote inside `cat`, returning `cat`. -/
def chopQuote : List Char → Option (List Char)
  | [] => none
  | [c] => if c == dquote then some [] else none
  | c :: rest =>
    if c == dquote then none else (chopQuote rest).map (fun t => c :: t)

/-- Parse an annotation comment of the shape
`# <description> - should be tagged as "<Category>"`, returning the
category label. -/
def categoryOf (line : String) : Option String :=
  if startsCh ("# ".data) line.data then
    match afterSub (" - should be tagged as \"".data) line.data with
    | some rest => (chopQuote rest).map String.mk
    | none => none
  else none

/-- The annotation shape `# <desc> - should be tagged as "<cat>"`. -/
def tagShape (desc cat : String) : String :=
  "# " ++ desc ++ " - should be tagged as \"" ++ cat ++ "\""

/-- A Python `import` line. -/
def isImportLine (s : String) : Bool := startsCh ("import ".data) s.data

/-- A comment line (the fixture's comments all start in column 0). -/
def isCommentLine (s : String) : Bool := startsCh ("#".data) s.data

/-- One step of splitting a file into blank-line-separated blocks. -/
def splitBlankStep (l : String) (acc : List (List String)) :
    List (List String) :=
  if l == "" then [] :: acc
  else
    match acc with
    | [] => [[l]]
    | g :: gs => (l :: g) :: gs

/-- Split a line list into its maximal blocks of consecutive non-blank
lines. -/
def splitBlank (ls : List String) : List (List String) :=
  (ls.foldr splitBlankStep []).filter (fun g => !g.isEmpty)

/-- The annotated groups of the fixture: the blank-line-separated blocks
that are not import lines. -/
def fileGroups : List (List String) :=
  (splitBlank fileLines).filter (fun g => !g.any isImportLine)

/-- The group introduced by the annotation naming category `cat`. -/
def groupOf (cat : String) : List String :=
  (fileGroups.filter (fun g => categoryOf (g.headD "") == some cat)).headD []

/-- Remove leading spaces (Python indentation). -/
def stripIndent (s : String) : String := String.mk (s.data.dropWhile (· == ' '))

/-- A Python `if` statement line. -/
def isBranchLine (l : String) : Bool :=
  startsCh ("if ".data) (stripIndent l).data

/-- A Python `for` or `while` loop statement line. -/
def isLoopLine (l : String) : Bool :=
  startsCh ("for ".data) (stripIndent l).data ||
    startsCh ("while ".data) (stripIndent l).data

/-- A Python `try` statement line. -/
def isTryLine (l : String) : Bool :=
  startsCh ("try".data) (stripIndent l).data

/-- A Python `except` clause line. -/
def isExceptLine (l : String) : Bool :=
  startsCh ("except".data) (stripIndent l).data

/-- A character that can be part of a Python identifier word. -/
def isWordChar (c : Char) : Bool := c.isAlphanum || c == '_'

/-- `wordAt p s` holds when `p` occurs at the start of `s` and is not
immediately followed by a word character. -/
def wordAt (p s : List Char) : Bool :=
  match dropPre p s with
  | some [] => true
  | some (c :: _) => !isWordChar c
  | none => false

/-- Count standalone-word occurrences of `p` in a character list; `prevOk`
records whether the preceding character (if any) was not a word character. -/
def countWordAux (p : List Char) : Bool → List Char → Nat
  | _, [] => 0
  | prevOk, c :: s =>
    (if prevOk && wordAt p (c :: s) then 1 else 0) +
      countWordAux p (!isWordChar c) s

/-- Standalone-word occurrences of `p` in the string `s`: occurrences not
immediately preceded or followed by a letter, digit or underscore. -/
def countWord (p s : String) : Nat := countWordAux p.data true s.data

/-- Total standalone-word occurrences of `p` across the fixture's lines. -/
def countWordInFile (p : String) : Nat :=
  (fileLines.map (countWord p)).sum

/-! ## Shallow embedding of the fixture's top-level Python statements

Each top-level statement of `test-files/test-python.py` is transcribed
into a `Stmt` carrying its source line number, the names it binds
(assignment targets, imported module names, `except ... as` targets) and
the names it reads (variables and functions referenced by its
expressions; attribute and keyword-argument names after a dot or before
`=` inside a call, and names inside string literals, are not reads). -/

/-- A reason the sequential evaluation of the module halts. -/
inductive Halt where
  /-- A NameError: at `line`, the name `n` is not bound. -/
  | nameError (line : Nat) (n : String)
  /-- An exception raised by a `raise` statement at `line`. -/
  | raised (line : Nat)

/-- Top-level Python statements, shallowly embedded.  `seq` chains
statements; blocks of `tryExcept` and `ifThen` are nested statements. -/
inductive Stmt where
  /-- The empty statement. -/
  | skip
  /-- `import m` at `line`; binds `m`. -/
  | imprt (line : Nat) (m : String)
  /-- A simple statement at `line` binding `stores` and reading `loads`. -/
  | simple (line : Nat) (stores loads : List String)
  /-- `raise ...` at `line` reading `loads`. -/
  | raiseStmt (line : Nat) (loads : List String)
  /-- Sequencing of two statements. -/
  | seq (a b : Stmt)
  /-- `try: body except excClass as excName: handler`; the `except` clause
  is at line `excLine`. -/
  | tryExcept (body : Stmt) (excLine : Nat) (excClass excName : String)
      (handler : Stmt)
  /-- `if <cond>: body` at `line`, the condition reading `condLoads`. -/
  | ifThen (line : Nat) (condLoads : List String) (body : Stmt)

/-- Names bound somewhere in a statement. -/
def stmtStores : Stmt → List String
  | .skip => []
  | .imprt _ m => [m]
  | .simple _ sts _ => sts
  | .raiseStmt _ _ => []
  | .seq a b => stmtStores a ++ stmtStores b
  | .tryExcept b _ _ en h => stmtStores b ++ [en] ++ stmtStores h
  | .ifThen _ _ b => stmtStores b

/-- Names read somewhere in a statement. -/
def stmtLoads : Stmt → List String
  | .skip => []
  | .imprt _ _ => []
  | .simple _ _ lds => lds
  | .raiseStmt _ lds => lds
  | .seq a b => stmtLoads a ++ stmtLoads b
  | .tryExcept b _ ec _ h => stmtLoads b ++ [ec] ++ stmtLoads h
  | .ifThen _ lds b => lds ++ stmtLoads b

/-- Module names imported by a statement, in order. -/
def stmtImports : Stmt → List String
  | .imprt _ m => [m]
  | .seq a b => stmtImports a ++ stmtImports b
  | .tryExcept b _ _ _ h => stmtImports b ++ stmtImports h
  | .ifThen _ _ b => stmtImports b
  | _ => []

/-- Python built-in names referenced by the fixture (available in any
evaluation environment without being defined or imported). -/
def builtins : List String := ["print", "Exception", "ValueError"]

/-- The first name in `loads` bound neither among the built-ins nor in
`env`. -/
def firstUnknown (env loads : List String) : Option String :=
  loads.find? (fun n => !(builtins.contains n || env.contains n))

/-- Sequential evaluation of a statement over an environment of bound
names.  Evaluation halts with a `NameError` at the first read of an
unbound name; an `if` body is entered after its condition's reads are
checked (for this module the halt happens before any branch, so the
branch outcome is immaterial); `except excClass` catches any halt of the
`try` body, as `except Exception` would. -/
def evalStmt (env : List String) : Stmt → Except Halt (List String)
  | .skip => .ok env
  | .imprt _ m => .ok (m :: env)
  | .simple ln sts lds =>
    match firstUnknown env lds with
    | some n => .error (.nameError ln n)
    | none => .ok (sts ++ env)
  | .raiseStmt ln lds =>
    match firstUnknown env lds with
    | some n => .error (.nameError ln n)
    | none => .error (.raised ln)
  | .seq a b =>
    match evalStmt env a with
    | .ok env2 => evalStmt env2 b
    | .error h => .error h
  | .tryExcept body eline ec en handler =>
    match evalStmt env body with
    | .ok env2 => .ok env2
    | .error _ =>
      match firstUnknown env [ec] with
      | some n => .error (.nameError eline n)
      | none => evalStmt (en :: env) handler
  | .ifThen ln lds body =>
    match firstUnknown env lds with
    | some n => .error (.nameError ln n)
    | none => evalStmt env body

/-- The top-level statements of `test-files/test-python.py`, in file
order, transcribed with their line numbers, bound names and read names. -/
def program : List Stmt := [
  .imprt 1 "requests",
  .imprt 2 "json",
  .simple 5 ["response"] ["requests"],
  .simple 6 ["fetch_data"] ["http"],
  .simple 9 [] ["print"],
  .simple 10 [] ["console"],
  .simple 11 [] ["debugger"],
  .simple 20 ["user"] ["User"],
  .simple 21 ["query"] [],
  .simple 22 [] ["User"],
  .simple 23 [] ["users"],
  .tryExcept (.simple 27 [] ["risky_operation"]) 28 "Exception" "e"
    (.seq (.simple 29 [] ["print", "e"]) (.raiseStmt 30 ["ValueError"])),
  .simple 33 ["token"] ["generate_jwt_token", "user_id"],
  .ifThen 34 ["user"] (.simple 35 [] ["login_user", "user"]),
  .simple 36 ["password_hash"] ["hash_password", "password"],
  .simple 39 ["api_key"] ["os"],
  .simple 40 ["config"] ["load_config_file"],
  .simple 41 ["settings"] ["get_app_settings"]
]

/-- The module as one sequenced statement. -/
def moduleStmt : Stmt := program.foldr .seq .skip

/-- All names bound somewhere in the module. -/
def allStoredNames : List String := stmtStores moduleStmt

/-- All names read somewhere in the module. -/
def allLoadedNames : List String := stmtLoads moduleStmt

/-- Drop duplicates, keeping the first occurrence of each element. -/
def dedupeAux (seen : List String) : List String → List String
  | [] => []
  | x :: xs =>
    if seen.contains x then dedupeAux seen xs
    else x :: dedupeAux (x :: seen) xs

/-- Drop duplicates, keeping first occurrences. -/
def dedupeFirst (l : List String) : List String := dedupeAux [] l

/-- The names the module reads that are bound nowhere in it and are not
built-ins, in order of first read. -/
def undefinedRefs : List String :=
  dedupeFirst (allLoadedNames.filter
    (fun n => !allStoredNames.contains n && !builtins.contains n))

/-- The names claim C7 asserts are referenced without ever being defined
or imported. -/
def claimedUndefined : List String :=
  ["http", "console", "debugger", "User", "users", "risky_operation",
   "generate_jwt_token", "user_id", "user", "login_user", "hash_password",
   "password", "os", "load_config_file", "get_app_settings"]

/-- Claim C1: the fixture's annotation comments name exactly the seven
categories "Network Call", "Debug Statement", "Unfinished Block",
"Database Operation", "Error Handling", "Authentication",
"Configuration", each category label occurring exactly once, in that
order, and no annotation comment anywhere in the file names any other
category. -/
theorem c1_annotation_categories :
    fileLines.filterMap categoryOf =
      ["Network Call", "Debug Statement", "Unfinished Block",
       "Database Operation", "Error Handling", "Authentication",
       "Configuration"] := rfl

/-- Claim C2: the repository consists of exactly one source file; its
sample snippets fall into seven blank-line-separated groups, each
introduced by an annotation comment stating a category; and every
non-import, non-blank line of the file belongs to exactly one such
group. -/
theorem c2_single_file_groups :
    repoSourceFiles.length = 1 ∧
    fileGroups.length = 7 ∧
    (fileGroups.all (fun g => (categoryOf (g.headD "")).isSome)) = true ∧
    (fileLines.all (fun l =>
      l == "" || isImportLine l ||
        fileGroups.countP (fun g => g.contains l) == 1)) = true :=
  ⟨rfl, rfl, rfl, rfl⟩

/-- Claim C3 as stated is false: the file is not free of branching and
exception-handling statements — line 34 is an `if` statement, line 26 a
`try` statement and line 28 an `except` clause. -/
theorem c3_cex :
    (fileLines.all (fun l =>
      !isBranchLine l && !isLoopLine l && !isTryLine l &&
        !isExceptLine l)) = false ∧
    isBranchLine (lineAt 34) = true ∧
    isTryLine (lineAt 26) = true ∧
    isExceptLine (lineAt 28) = true :=
  ⟨rfl, rfl, rfl, rfl⟩

/-- Claim C3, amended: the file is a flat list of annotated code
examples with no looping statements; it does contain exactly one `if`
statement and one `try`/`except` pair, and those lines are sample
content inside the annotated groups ("Authentication" and
"Error Handling" respectively). -/
theorem c3_amended_flat_no_loops :
    (fileLines.all (fun l => !isLoopLine l)) = true ∧
    fileLines.countP isBranchLine = 1 ∧
    fileLines.countP isTryLine = 1 ∧
    fileLines.countP isExceptLine = 1 ∧
    (groupOf "Authentication").contains (lineAt 34) = true ∧
    (groupOf "Error Handling").contains (lineAt 26) = true ∧
    (groupOf "Error Handling").contains (lineAt 28) = true :=
  ⟨rfl, rfl, rfl, rfl, rfl, rfl, rfl⟩

/-- Claim C4 as stated is false: not every annotated group contains a
non-comment code line — the "Unfinished Block" group consists of comment
lines only. -/
theorem c4_cex :
    (fileGroups.all (fun g => g.any (fun l => !isCommentLine l))) = false ∧
    ((groupOf "Unfinished Block").all isCommentLine) = true :=
  ⟨rfl, rfl⟩

/-- Claim C4, amended: every one of the seven annotated groups pairs its
annotation with at least one sample line; six of the seven groups
include a non-comment code line, and the single exception is the
"Unfinished Block" group, whose sample content consists entirely of
comment lines. -/
theorem c4_amended_group_content :
    fileGroups.length = 7 ∧
    (fileGroups.all (fun g => !(g.drop 1).isEmpty)) = true ∧
    fileGroups.countP (fun g => g.any (fun l => !isCommentLine l)) = 6 ∧
    (fileGroups.filter (fun g => g.all isCommentLine)) =
      [groupOf "Unfinished Block"] ∧
    ((groupOf "Unfinished Block").drop 1).all isCommentLine = true :=
  ⟨rfl, rfl, rfl, rfl, rfl⟩

/-- Claim C5: the file contains exactly one `try` statement, one
`except` clause and one `raise` statement, all inside the group
annotated "Error Handling"; the `except` branch catches `Exception`,
prints the error and raises a `ValueError`; and no other part of the
file defines error classes (there are no `def` or `class` lines at
all). -/
theorem c5_error_handling_block :
    fileLines.countP isTryLine = 1 ∧
    fileLines.countP (fun l => hasSubStr "except" l) = 1 ∧
    fileLines.countP (fun l => hasSubStr "raise" l) = 1 ∧
    groupOf "Error Handling" =
      ["# Error handling - should be tagged as \"Error Handling\"",
       "try:",
       "    risky_operation()",
       "except Exception as e:",
       "    print(f\"Error: {e}\")",
       "    raise ValueError(\"Custom error\")"] ∧
    countInFile "def " = 0 ∧
    countInFile "class " = 0 :=
  ⟨rfl, rfl, rfl, rfl, rfl, rfl⟩

/-- Claim C6: the fixture defines no executable component or external
interface: it has no function or class definitions, no
`if __name__ == "__main__"` entry point, no argument-parsing or file
I/O, and every non-blank line is either an import or belongs to exactly
one annotated sample group. -/
theorem c6_no_components :
    countInFile "def " = 0 ∧
    countInFile "class " = 0 ∧
    countInFile "lambda" = 0 ∧
    countInFile "__name__" = 0 ∧
    countInFile "__main__" = 0 ∧
    countInFile "argparse" = 0 ∧
    countInFile "sys.argv" = 0 ∧
    countInFile "open(" = 0 ∧
    countInFile "input(" = 0 ∧
    (fileLines.all (fun l =>
      l == "" || isImportLine l ||
        fileGroups.countP (fun g => g.contains l) == 1)) = true :=
  ⟨rfl, rfl, rfl, rfl, rfl, rfl, rfl, rfl, rfl, rfl⟩

/-- Claim C7 as stated is false: its list of never-defined names
includes `user`, but `user` is bound by the assignment `user =
User.objects.get(id=1)` at line 20, so not every listed name is
referenced without ever being defined. -/
theorem c7_cex :
    (claimedUndefined.all (fun n => !allStoredNames.contains n)) = false ∧
    claimedUndefined.contains "user" = true ∧
    allStoredNames.contains "user" = true ∧
    startsStr "user = " (lineAt 20) = true :=
  ⟨rfl, rfl, rfl, rfl⟩

/-- Claim C7, amended: only `requests` and `json` are imported; the
names referenced by the module but bound nowhere in it (and not
built-ins) are exactly `http`, `console`, `debugger`, `User`, `users`,
`risky_operation`, `generate_jwt_token`, `user_id`, `login_user`,
`hash_password`, `password`, `os`, `load_config_file` and
`get_app_settings` — the claim's list minus `user`, which is both read
and assigned (at line 20, an assignment never reached) — and evaluating
the module's top-level statements in an environment containing only its
own imports fails with a NameError, first at line 6 on the name
`http`. -/
theorem c7_amended_unbound_names :
    undefinedRefs =
      ["http", "console", "debugger", "User", "users", "risky_operation",
       "generate_jwt_token", "user_id", "login_user", "hash_password",
       "password", "os", "load_config_file", "get_app_settings"] ∧
    stmtImports moduleStmt = ["requests", "json"] ∧
    evalStmt [] moduleStmt = Except.error (Halt.nameError 6 "http") ∧
    allLoadedNames.contains "user" = true ∧
    allStoredNames.contains "user" = true ∧
    hasSubStr "http.get" (lineAt 6) = true :=
  ⟨rfl, rfl, rfl, rfl, rfl, rfl⟩

/-- Claim C8: exactly seven lines of the file are annotation comments of
the uniform shape `# <description> - should be tagged as "<Category>"`
(category enclosed in double quotes), and no other comment line matches
that format — indeed no other comment line even contains the phrase
"should be tagged". -/
theorem c8_annotation_format :
    (fileLines.filter (fun l => (categoryOf l).isSome)) =
      [tagShape "Network calls" "Network Call",
       tagShape "Debug statements" "Debug Statement",
       tagShape "TODOs" "Unfinished Block",
       tagShape "Database operations" "Database Operation",
       tagShape "Error handling" "Error Handling",
       tagShape "Authentication" "Authentication",
       tagShape "Configuration" "Configuration"] ∧
    fileLines.countP (fun l => (categoryOf l).isSome) = 7 ∧
    (fileLines.all (fun l =>
      !isCommentLine l || (categoryOf l).isSome ||
        !hasSubStr "should be tagged" l)) = true :=
  ⟨rfl, rfl, rfl⟩

/-- Claim C9 as stated is false: the marker string `TODO` does not
appear only in the group's four sample lines — it also occurs in the
annotation comment at line 13, inside the word `TODOs`, so two lines of
the file contain `TODO`. -/
theorem c9_cex :
    (fileLines.all (fun l =>
      !hasSubStr "TODO" l ||
        ((groupOf "Unfinished Block").drop 1).contains l)) = false ∧
    fileLines.countP (fun l => hasSubStr "TODO" l) = 2 ∧
    hasSubStr "TODO" (lineAt 13) = true ∧
    ((groupOf "Unfinished Block").drop 1).contains (lineAt 13) = false :=
  ⟨rfl, rfl, rfl, rfl⟩

/-- Claim C9, amended: the sample content of the "Unfinished Block"
group is exactly four comment lines carrying the markers `TODO`,
`FIXME`, `HACK` and `NOTE` once each; `FIXME`, `HACK` and `NOTE` occur
nowhere else in the file even as substrings, and `TODO` occurs as a
standalone word nowhere else — its only other occurrence is as a
substring of the word `TODOs` in the group's annotation comment at
line 13. -/
theorem c9_amended_markers :
    (groupOf "Unfinished Block").drop 1 =
      ["# TODO: Add error handling",
       "# FIXME: This function is broken",
       "# HACK: Temporary fix for the bug",
       "# NOTE: Remember to update this"] ∧
    countWordInFile "TODO" = 1 ∧
    countWordInFile "FIXME" = 1 ∧
    countWordInFile "HACK" = 1 ∧
    countWordInFile "NOTE" = 1 ∧
    countInFile "FIXME" = 1 ∧
    countInFile "HACK" = 1 ∧
    countInFile "NOTE" = 1 ∧
    countInFile "TODO" = 2 ∧
    hasSubStr "TODOs" (lineAt 13) = true ∧
    countWord "TODO" (lineAt 14) = 1 ∧
    countWord "FIXME" (lineAt 15) = 1 ∧
    countWord "HACK" (lineAt 16) = 1 ∧
    countWord "NOTE" (lineAt 17) = 1 :=
  ⟨rfl, rfl, rfl, rfl, rfl, rfl, rfl, rfl, rfl, rfl, rfl, rfl, rfl, rfl⟩

end SemTags
